import Mathlib

/-!
Verification development for the core of the heph actor runtime.

The Rust sources are shallowly embedded: machine integers become `Nat`
with explicit bounds, fallible operations return `Except` or `Option`,
and stateful components become explicit state-passing functions. Every
definition is translated from the corresponding Rust item; definitions
whose Rust implementation is absent from the available sources (the
scheduler, for which only its test suite is available) are modelled from
the specification and say so in their doc comment.
-/

/-! ## Waker data encoding (src/system/waker.rs) -/

/-- Number of bits of a `ProcessId` (`mem::size_of::<ProcessId>() * 8`
with `ProcessId` a `u32` newtype), from src/system/waker.rs. -/
def PID_BITS : Nat := 32

/-- Mask for the process-id bits, `(1 << PID_BITS) - 1`, from
src/system/waker.rs. -/
def PID_MASK : Nat := (1 <<< PID_BITS) - 1

/-- Embeds `WakerData::new(thread_id, pid)`: the waker id shifted left by
`PID_BITS`, or-ed with the pid. The Rust value is a `usize`; for
`thread_id < 2^8` and `pid < 2^32` the result fits in 40 bits, so no
wraparound at `2^64` can occur and plain `Nat` arithmetic is faithful. -/
def wakerDataNew (threadId pid : Nat) : Nat :=
  (threadId <<< PID_BITS) ||| pid

/-- Embeds `WakerData::waker_id`: shift right by `PID_BITS`, then the
`as u8` cast truncates to 8 bits. -/
def wakerDataWakerId (data : Nat) : Nat :=
  (data >>> PID_BITS) % 2 ^ 8

/-- Embeds `WakerData::pid`: mask with `PID_MASK`, then the `as u32`
cast truncates to 32 bits. -/
def wakerDataPid (data : Nat) : Nat :=
  (data &&& PID_MASK) % 2 ^ 32

/-! ## Per-worker thread waker (src/system/waker.rs, `ThreadWaker`) -/

/-- State of one `ThreadWaker` slot: the pids sent on the notification
channel so far (in order), the `awoken` flag, and the number of times
the OS poll interrupter (`mio::Waker::wake`) has been signalled. The
channel send and the OS wake are modelled as always succeeding (the
runtime uses an unbounded channel and the error paths only log). -/
structure ThreadWaker where
  notifications : List Nat
  awoken : Bool
  osWakes : Nat
deriving DecidableEq, Repr

/-- Embeds `ThreadWaker::wake(pid)`: send `pid` on the notification
channel, then, only if the `awoken` flag is not set, signal the OS poll
interrupter and set the flag. -/
def ThreadWaker.wake (w : ThreadWaker) (pid : Nat) : ThreadWaker :=
  let w1 := { w with notifications := w.notifications ++ [pid] }
  if w1.awoken then w1
  else { w1 with osWakes := w1.osWakes + 1, awoken := true }

/-- Embeds `ThreadWaker::mark_polled`: clear the `awoken` flag. -/
def ThreadWaker.markPolled (w : ThreadWaker) : ThreadWaker :=
  { w with awoken := false }

/-- A sequence of `wake` calls, applied in order. -/
def wakeAll (ps : List Nat) (w : ThreadWaker) : ThreadWaker :=
  ps.foldl ThreadWaker.wake w

/-! ## Scheduler (modelled from the spec)

The local and shared scheduler implementations are not among the
available sources; only their test suites are
(src/rt/scheduler/tests.rs and rt/src/shared/scheduler/tests.rs).
The definitions below are therefore modelled from the specification,
which gives both variants the same semantic contract. -/

/-- Modelled from the spec: the priority of a process, one of LOW,
NORMAL and HIGH (section 3, Priority). -/
inductive Priority where
  | low
  | normal
  | high
deriving DecidableEq, Repr

/-- Rank used for ordering at equal fair runtime: a smaller rank runs
first, so HIGH runs before NORMAL which runs before LOW. -/
def Priority.rank : Priority → Nat
  | .high => 0
  | .normal => 1
  | .low => 2

/-- Modelled from the spec: the scheduler-visible attributes of a
process record, `pid`, `priority` and the `fair_runtime` accumulator
(section 3, ProcessRecord). Durations are modelled as `Nat`. -/
structure ProcessData where
  pid : Nat
  priority : Priority
  fairRuntime : Nat
deriving DecidableEq, Repr

/-- Modelled from the spec: the ready ordering. A record runs before
another when its fair runtime is strictly smaller; at equal fair
runtime the ordering contract of section 4.2 (HIGH before NORMAL
before LOW, as also asserted by the scheduler test suites) decides,
and the pid is the final tie break. -/
def ProcessData.runsBefore (a b : ProcessData) : Bool :=
  a.fairRuntime < b.fairRuntime ||
    (a.fairRuntime == b.fairRuntime &&
      (a.priority.rank < b.priority.rank ||
        (a.priority.rank == b.priority.rank && a.pid < b.pid)))

/-- Select the record that runs first from a non-empty collection,
returning it together with the remaining records. -/
def selectNext : ProcessData → List ProcessData → ProcessData × List ProcessData
  | best, [] => (best, [])
  | best, x :: xs =>
    if x.runsBefore best then
      let r := selectNext x xs
      (r.1, best :: r.2)
    else
      let r := selectNext best xs
      (r.1, x :: r.2)

/-- Modelled from the spec: a scheduler holds a ready set, an inactive
set and a counter of handed-out pids (sections 4.2 and 4.3). The sets
are modelled as lists of records; the inactive set behaves as a map
keyed by the (unique, by construction) pid. -/
structure Scheduler where
  ready : List ProcessData
  inactive : List ProcessData
  nextPid : Nat
deriving DecidableEq, Repr

/-- Modelled from the spec: a freshly created, empty scheduler. -/
def Scheduler.new : Scheduler :=
  { ready := [], inactive := [], nextPid := 0 }

/-- Modelled from the spec: the current minimum fair runtime over the
ready records, zero when the ready set is empty; a newly admitted
record starts at this value (section 3, ProcessRecord). -/
def Scheduler.minFairRuntime (s : Scheduler) : Nat :=
  match s.ready.map ProcessData.fairRuntime with
  | [] => 0
  | x :: xs => xs.foldl Nat.min x

/-- Modelled from the spec: `add_actor` reserves a fresh pid
(section 4.2). -/
def Scheduler.addActor (s : Scheduler) : Nat × Scheduler :=
  (s.nextPid, { s with nextPid := s.nextPid + 1 })

/-- Modelled from the spec: `Entry::add` installs the record for a
reserved pid with the given priority, into the ready set when the ready
flag is set and into the inactive set otherwise (section 3, Lifecycle).
The fair runtime starts at the current minimum over ready records. -/
def Scheduler.entryAdd (s : Scheduler) (pid : Nat) (priority : Priority)
    (readyFlag : Bool) : Scheduler :=
  let r : ProcessData :=
    { pid := pid, priority := priority, fairRuntime := s.minFairRuntime }
  if readyFlag then { s with ready := s.ready ++ [r] }
  else { s with inactive := s.inactive ++ [r] }

/-- Modelled from the spec: `mark_ready(pid)` moves the record from the
inactive set to the ready set when the pid is inactive, and otherwise
does nothing (section 4.2). -/
def Scheduler.markReady (s : Scheduler) (pid : Nat) : Scheduler :=
  match s.inactive.find? (fun r => r.pid == pid) with
  | none => s
  | some r =>
    { s with
        ready := s.ready ++ [r],
        inactive := s.inactive.filter (fun q => q.pid != pid) }

/-- Modelled from the spec: `next_process` pops the first record of the
ready ordering (section 4.2). -/
def Scheduler.nextProcess (s : Scheduler) : Option (ProcessData × Scheduler) :=
  match s.ready with
  | [] => none
  | x :: xs =>
    let r := selectNext x xs
    some (r.1, { s with ready := r.2 })

/-- Modelled from the spec: `add_process` reinserts a record taken by a
worker into the inactive set (section 4.2). -/
def Scheduler.addProcess (s : Scheduler) (r : ProcessData) : Scheduler :=
  { s with inactive := s.inactive ++ [r] }

/-- Modelled from the spec: `has_process` (section 4.2). -/
def Scheduler.hasProcess (s : Scheduler) : Bool :=
  !s.ready.isEmpty || !s.inactive.isEmpty

/-- Modelled from the spec: `has_ready_process` (section 4.2). -/
def Scheduler.hasReadyProcess (s : Scheduler) : Bool :=
  !s.ready.isEmpty

/-- Reserve a pid and install a record for it in one step, as the
scheduler test suites do via `add_actor` followed by `Entry::add`. -/
def Scheduler.spawn (s : Scheduler) (priority : Priority)
    (readyFlag : Bool) : Nat × Scheduler :=
  let a := s.addActor
  (a.1, a.2.entryAdd a.1 priority readyFlag)

/-- The `scheduler_run_order` scenario of both scheduler test suites:
insert three actors with priorities LOW, NORMAL and HIGH (ids 0, 1 and
2, equal to their pids) as ready, then pop and run each once; each
actor pushes its id to a shared vector on its first poll and completes.
Returns the vector of pushed ids and the final scheduler state. -/
def schedulerRunOrderScenario : List Nat × Scheduler :=
  let s0 := Scheduler.new
  let s1 := (s0.spawn .low true).2
  let s2 := (s1.spawn .normal true).2
  let s3 := (s2.spawn .high true).2
  let step := fun (acc : List Nat × Scheduler) =>
    match acc.2.nextProcess with
    | none => acc
    | some (r, s) => (acc.1 ++ [r.pid], s)
  step (step (step ([], s3)))

/-! ## Timers: the Deadline wrapper (src/timer.rs) -/

/-- Result of polling a future, `task::Poll`. -/
inductive Poll (α : Type) where
  | ready (value : α)
  | pending
deriving DecidableEq, Repr

/-- The relevant `io::ErrorKind` values for this development. -/
inductive IoErrorKind where
  | timedOut
  | wouldBlock
  | otherError
deriving DecidableEq, Repr

/-- Embeds `impl From<DeadlinePassed> for io::Error`: the conversion
produces an error of kind `TimedOut` (src/timer.rs, lines 35-39). -/
def deadlinePassedIntoIoError : IoErrorKind := .timedOut

/-- Embeds the `Deadline<Fut>` struct: a deadline instant (modelled as
`Nat`) together with the state of the wrapped future. -/
structure Deadline (σ : Type) where
  deadline : Nat
  future : σ

/-- Embeds `Deadline::has_passed`: `deadline <= Instant::now()`. -/
def Deadline.hasPassed (d : Deadline σ) (now : Nat) : Bool :=
  d.deadline ≤ now

/-- Embeds `impl Future for Deadline` (src/timer.rs, lines 292-310).
The wrapped future is an explicit state machine `innerPoll`; its error
type `E` receives the converted `DeadlinePassed` value
`fromDeadlinePassed` (the `From<DeadlinePassed>` bound). If the
deadline has passed the poll short-circuits with that error without
touching the inner future; otherwise the inner future is polled and
its result returned. -/
def Deadline.poll {σ E T : Type} (fromDeadlinePassed : E)
    (innerPoll : σ → σ × Poll (Except E T))
    (d : Deadline σ) (now : Nat) : Deadline σ × Poll (Except E T) :=
  if d.hasPassed now then (d, .ready (.error fromDeadlinePassed))
  else
    let r := innerPoll d.future
    ({ d with future := r.1 }, r.2)

/-- A never-completing future (`futures_util::future::pending`): every
poll leaves the state unchanged and returns `Pending`. -/
def pendingPoll {σ E T : Type} : σ → σ × Poll (Except E T) :=
  fun s => (s, .pending)

/-! ## Runtime configuration (src/rt/mod.rs) -/

/-- Embeds `waker::MAX_THREADS` (src/system/waker.rs, and re-exported
for the runtime): the maximum number of worker threads. -/
def MAX_THREADS : Nat := 64

/-- The configuration accumulated by the `Runtime` builder: the number
of worker threads and the number of spawned synchronous actors (the
setup function and thread handles carry no data relevant here). -/
structure RuntimeConfig where
  threads : Nat
  syncActors : Nat
deriving DecidableEq, Repr

/-- Embeds `Runtime::new`: the default configuration, one worker
thread and no synchronous actors (src/rt/mod.rs, lines 172-181). -/
def Runtime.new : RuntimeConfig :=
  { threads := 1, syncActors := 0 }

/-- Embeds `Runtime::num_threads` (src/rt/mod.rs, lines 205-214): for
`n` above `MAX_THREADS` construction fails hard (the Rust code panics,
modelled as `Except.error` carrying the panic message); otherwise the
worker-thread count is set to `n`. -/
def Runtime.numThreads (rt : RuntimeConfig) (n : Nat) : Except String RuntimeConfig :=
  if n > MAX_THREADS then
    .error ("Cannot create " ++ toString n ++ " worker threads, "
      ++ toString MAX_THREADS ++ " is the maximum")
  else
    .ok { rt with threads := n }

/-! ## Synchronous actor worker (src/rt/sync_worker.rs) -/

/-- Embeds `SupervisorStrategy`: the decision of a supervisor, either
restart with a new argument or stop. -/
inductive SupervisorStrategy (α : Type) where
  | restart (arg : α)
  | stop
deriving DecidableEq, Repr

/-- Embeds the loop of `sync_worker::main` (src/rt/sync_worker.rs,
lines 107-134): run the actor (each iteration first takes a fresh
receiver for the same inbox); on `Ok` break; on `Err` consult the
supervisor: `Restart(new_arg)` loops again with the new argument,
`Stop` breaks. Returns the list of arguments the actor body was run
with, in order, or `none` when the given fuel is exhausted before the
loop terminates (the Rust loop may diverge). -/
def syncWorkerMain {Arg E : Type} (actor : Arg → Except E Unit)
    (supervisor : E → SupervisorStrategy Arg) :
    Nat → Arg → Option (List Arg)
  | 0, _ => none
  | fuel + 1, arg =>
    match actor arg with
    | .ok _ => some [arg]
    | .error e =>
      match supervisor e with
      | .stop => some [arg]
      | .restart newArg =>
        (syncWorkerMain actor supervisor fuel newArg).map (arg :: ·)

/-- Embeds `bad_actor` from tests/functional/sync_actor.rs: every
invocation returns `Err(count + 1)`. -/
def badActor (count : Nat) : Except Nat Unit :=
  .error (count + 1)

/-- Embeds `bad_actor_supervisor` from tests/functional/sync_actor.rs:
restart with the error count on the first error (error count 1), stop
on any subsequent error. -/
def badActorSupervisor (errCount : Nat) : SupervisorStrategy Nat :=
  if errCount == 1 then .restart errCount else .stop

/-- Result of a `write` on the Unix pipe to a synchronous actor
thread: either the number of bytes written or an error kind. -/
inductive PipeWriteResult where
  | ok (n : Nat)
  | err (kind : IoErrorKind)
deriving DecidableEq, Repr

/-- The buffer `SyncWorker::is_alive` passes to `write` on the Unix
pipe to the thread (src/rt/sync_worker.rs, line 72): the empty slice
`&[]`, that is, a zero-length write. Bytes are modelled as `Nat`. -/
def isAliveWriteBuffer : List Nat := []

/-- Embeds `SyncWorker::is_alive` (src/rt/sync_worker.rs, lines
70-77). The pipe is modelled as a function from the written buffer to
the result of the write; `is_alive` performs a single write of
`isAliveWriteBuffer` and matches on the result: `Ok` means alive, an
error of kind `WouldBlock` also means alive, and any other error means
the thread has exited. -/
def syncWorkerIsAlive (pipeWrite : List Nat → PipeWriteResult) : Bool :=
  match pipeWrite isAliveWriteBuffer with
  | .ok _ => true
  | .err kind => if kind = IoErrorKind.wouldBlock then true else false

/-- The values dropped at the end of `sync_worker::main`. -/
inductive SyncWorkerResource where
  | actorValue
  | supervisorValue
  | inboxManager
  | traceLog
  | pipeReceiver
deriving DecidableEq, Repr

/-- Embeds the epilogue of `sync_worker::main` (src/rt/sync_worker.rs,
lines 136-143): the explicit `drop` calls after the loop, in program
order. The pipe receiver, whose closure signals thread exit to the
coordinator, is dropped last. -/
def syncWorkerDropOrder : List SyncWorkerResource :=
  [.actorValue, .supervisorValue, .inboxManager, .traceLog, .pipeReceiver]

/-- The `Deadline` of the deadline-short-circuit scenario: a deadline
wrapping a never-completing future, with the user error type
`io::Error` (its kind), polled at a given instant. -/
def pendingIoDeadlinePoll (d : Deadline Unit) (now : Nat) :
    Deadline Unit × Poll (Except IoErrorKind Unit) :=
  Deadline.poll deadlinePassedIntoIoError pendingPoll d now

/-! ## Theorems -/

/-- C1: three processes with priorities LOW, NORMAL and HIGH and equal
fair runtime (ids and pids 0, 1 and 2), inserted as ready and each
popped and run once, are polled in priority order HIGH, NORMAL, LOW:
the vector of pushed ids is [2, 1, 0], and afterwards the scheduler
holds no process. -/
theorem scheduler_run_order_correct :
    schedulerRunOrderScenario.1 = [2, 1, 0] ∧
    schedulerRunOrderScenario.2.hasProcess = false := by
  decide

/-- C7: `Runtime::new` defaults to one worker thread;
`Runtime::num_threads(n)` is a hard error for every `n > 64` and sets
the worker-thread count to `n` for every `n ≤ 64`. -/
theorem runtime_num_threads_correct :
    Runtime.new.threads = 1 ∧
    (∀ (rt : RuntimeConfig) (n : Nat), 64 < n →
      ∃ msg, Runtime.numThreads rt n = .error msg) ∧
    (∀ (rt : RuntimeConfig) (n : Nat), n ≤ 64 →
      Runtime.numThreads rt n = .ok { rt with threads := n }) := by
  refine ⟨rfl, ?_, ?_⟩
  · intro rt n h
    refine ⟨"Cannot create " ++ toString n ++ " worker threads, "
      ++ toString MAX_THREADS ++ " is the maximum", ?_⟩
    simp [Runtime.numThreads, MAX_THREADS, h]
  · intro rt n h
    simp [Runtime.numThreads, MAX_THREADS, Nat.not_lt.mpr h]

/-- Witness for C7 at the concrete inputs 65 and 2. -/
theorem runtime_num_threads_correct_witness :
    64 < 65 ∧ (∃ msg, Runtime.numThreads Runtime.new 65 = .error msg) ∧
    2 ≤ 64 ∧
    Runtime.numThreads Runtime.new 2 = .ok { Runtime.new with threads := 2 } :=
  ⟨by decide, runtime_num_threads_correct.2.1 Runtime.new 65 (by decide),
   by decide, runtime_num_threads_correct.2.2 Runtime.new 2 (by decide)⟩

/-- C9 counterexample: the claim describes the liveness check as a
one-byte pipe write, but the buffer the code writes is the empty
slice, of length 0, not 1; against a pipe that errors precisely on
one-byte writes and accepts everything else, `is_alive` still reports
the thread alive, so the check performs no one-byte write. -/
theorem sync_worker_is_alive_counterexample :
    isAliveWriteBuffer = [] ∧
    isAliveWriteBuffer.length ≠ 1 ∧
    syncWorkerIsAlive
      (fun buf => if buf.length = 1 then .err .otherError else .ok buf.length)
      = true := by
  decide

/-- C9 (amended): `SyncWorker::is_alive` checks thread liveness by a
zero-byte write of the empty slice on the Unix pipe to the thread; it
returns true exactly when that write succeeds or fails with
`WouldBlock`, and false exactly when the write fails with any other
error. -/
theorem sync_worker_is_alive_correct :
    isAliveWriteBuffer = [] ∧
    ∀ pipeWrite : List Nat → PipeWriteResult,
      (syncWorkerIsAlive pipeWrite = true ↔
        ((∃ n, pipeWrite isAliveWriteBuffer = .ok n) ∨
          pipeWrite isAliveWriteBuffer = .err .wouldBlock)) ∧
      (syncWorkerIsAlive pipeWrite = false ↔
        ∃ kind, kind ≠ IoErrorKind.wouldBlock ∧
          pipeWrite isAliveWriteBuffer = .err kind) := by
  refine ⟨rfl, ?_⟩
  intro pipeWrite
  cases h : pipeWrite isAliveWriteBuffer with
  | ok n => simp [syncWorkerIsAlive, h]
  | err kind => cases kind <;> simp [syncWorkerIsAlive, h]

/-- C10: in the epilogue of `sync_worker::main` the pipe receiver is
dropped exactly once, strictly after the actor, the supervisor and the
inbox manager, and as the last resource. -/
theorem sync_worker_drop_order_correct :
    syncWorkerDropOrder.getLast? = some .pipeReceiver ∧
    syncWorkerDropOrder.indexOf .actorValue
      < syncWorkerDropOrder.indexOf .pipeReceiver ∧
    syncWorkerDropOrder.indexOf .supervisorValue
      < syncWorkerDropOrder.indexOf .pipeReceiver ∧
    syncWorkerDropOrder.indexOf .inboxManager
      < syncWorkerDropOrder.indexOf .pipeReceiver ∧
    syncWorkerDropOrder.count .pipeReceiver = 1 := by
  decide

/-- Helper: when no inactive record carries the pid, `mark_ready` is
the identity. -/
theorem markReady_of_find_none (s : Scheduler) (pid : Nat)
    (h : s.inactive.find? (fun r => r.pid == pid) = none) :
    s.markReady pid = s := by
  unfold Scheduler.markReady
  rw [h]

/-- Helper: filtering out a pid leaves no record with that pid to be
found. -/
theorem find_filter_ne_pid (l : List ProcessData) (pid : Nat) :
    (l.filter (fun q => q.pid != pid)).find? (fun r => r.pid == pid) = none := by
  apply List.find?_eq_none.mpr
  intro x hx
  have hmem := List.mem_filter.mp hx
  simpa using hmem.2

/-- C3: `mark_ready(pid)` on a pid that is not in the inactive set
(unknown, removed, in a worker hand, or already ready) leaves the
scheduler unchanged, and marking a pid ready twice equals marking it
once. -/
theorem mark_ready_frame :
    (∀ (s : Scheduler) (pid : Nat), (∀ r ∈ s.inactive, r.pid ≠ pid) →
      s.markReady pid = s) ∧
    (∀ (s : Scheduler) (pid : Nat),
      (s.markReady pid).markReady pid = s.markReady pid) := by
  constructor
  · intro s pid h
    apply markReady_of_find_none
    apply List.find?_eq_none.mpr
    intro x hx
    simpa using h x hx
  · intro s pid
    cases hf : s.inactive.find? (fun r => r.pid == pid) with
    | none =>
      rw [markReady_of_find_none s pid hf, markReady_of_find_none s pid hf]
    | some r =>
      have h1 : s.markReady pid =
          { s with
              ready := s.ready ++ [r],
              inactive := s.inactive.filter (fun q => q.pid != pid) } := by
        unfold Scheduler.markReady
        rw [hf]
      rw [h1]
      exact markReady_of_find_none _ pid (find_filter_ne_pid s.inactive pid)

/-- Witness for C3 at a concrete scheduler and pid. -/
theorem mark_ready_frame_witness :
    (∀ r ∈ Scheduler.new.inactive, r.pid ≠ 7) ∧
    Scheduler.new.markReady 7 = Scheduler.new :=
  ⟨by simp [Scheduler.new],
   mark_ready_frame.1 Scheduler.new 7 (by simp [Scheduler.new])⟩

/-- Helper: a `wake` while the awoken flag is set only appends to the
notification channel. -/
theorem wake_of_awoken (w : ThreadWaker) (p : Nat) (h : w.awoken = true) :
    w.wake p = { w with notifications := w.notifications ++ [p] } := by
  simp [ThreadWaker.wake, h]

/-- Helper: a whole sequence of wakes while the awoken flag is set only
appends to the notification channel; the flag stays set and the OS
interrupter is never signalled. -/
theorem wakeAll_of_awoken (ps : List Nat) (w : ThreadWaker) (h : w.awoken = true) :
    wakeAll ps w = { w with notifications := w.notifications ++ ps } := by
  induction ps generalizing w with
  | nil => simp [wakeAll]
  | cons p rest ih =>
    have h1 : wakeAll (p :: rest) w = wakeAll rest (w.wake p) := rfl
    rw [h1, wake_of_awoken w p h, ih _ (by simpa using h)]
    simp

/-- C4: between two `mark_polled` calls, a non-empty sequence of wakes
signals the OS poll interrupter exactly once however many wake calls
occur, and every wake sends its pid on the notification channel, so
every woken pid is in the channel the worker drains. -/
theorem waker_wake_coalescing (w : ThreadWaker) (ps : List Nat) (h : ps ≠ []) :
    (wakeAll ps w.markPolled).osWakes = w.osWakes + 1 ∧
    (wakeAll ps w.markPolled).notifications = w.notifications ++ ps ∧
    ∀ p ∈ ps, p ∈ (wakeAll ps w.markPolled).notifications := by
  match ps, h with
  | p :: rest, _ =>
    have h1 : wakeAll (p :: rest) w.markPolled
        = wakeAll rest (w.markPolled.wake p) := rfl
    have h2 : w.markPolled.wake p =
        { w with
            notifications := w.notifications ++ [p],
            awoken := true,
            osWakes := w.osWakes + 1 } := by
      simp [ThreadWaker.wake, ThreadWaker.markPolled]
    rw [h1, h2, wakeAll_of_awoken rest _ rfl]
    refine ⟨rfl, by simp, ?_⟩
    intro q hq
    rcases List.mem_cons.mp hq with rfl | hq2
    · simp
    · simp [hq2]

/-- Witness for C4: three wakes (a pid twice, then another) from a
freshly polled waker. -/
theorem waker_wake_coalescing_witness :
    ([3, 3, 5] : List Nat) ≠ [] ∧
    (wakeAll [3, 3, 5] (ThreadWaker.markPolled ⟨[], false, 0⟩)).osWakes = 0 + 1 ∧
    (wakeAll [3, 3, 5] (ThreadWaker.markPolled ⟨[], false, 0⟩)).notifications
      = [] ++ [3, 3, 5] ∧
    ∀ p ∈ ([3, 3, 5] : List Nat),
      p ∈ (wakeAll [3, 3, 5] (ThreadWaker.markPolled ⟨[], false, 0⟩)).notifications :=
  ⟨by decide, waker_wake_coalescing ⟨[], false, 0⟩ [3, 3, 5] (by decide)⟩

/-- Helper: for an in-range pid the encoded waker data is the waker id
scaled by `2 ^ 32` plus the pid. -/
theorem wakerDataNew_eq_add (w p : Nat) (hp : p < 2 ^ 32) :
    wakerDataNew w p = 2 ^ 32 * w + p := by
  unfold wakerDataNew PID_BITS
  rw [Nat.shiftLeft_eq, Nat.mul_comm w (2 ^ 32), ← Nat.mul_add_lt_is_or hp w]

/-- C5: for every waker id below `2^8` and pid below `2^32`, the
encoding occupies only the low 40 bits and decoding recovers both
components. -/
theorem wakerData_roundtrip (w p : Nat) (hw : w < 2 ^ 8) (hp : p < 2 ^ 32) :
    wakerDataNew w p < 2 ^ 40 ∧
    wakerDataWakerId (wakerDataNew w p) = w ∧
    wakerDataPid (wakerDataNew w p) = p := by
  rw [wakerDataNew_eq_add w p hp]
  refine ⟨by omega, ?_, ?_⟩
  · unfold wakerDataWakerId PID_BITS
    rw [Nat.shiftRight_eq_div_pow]
    omega
  · unfold wakerDataPid PID_MASK PID_BITS
    rw [Nat.shiftLeft_eq, Nat.one_mul, Nat.and_pow_two_sub_one_eq_mod]
    omega

/-- Witness for C5 at waker id 3 and pid 5. -/
theorem wakerData_roundtrip_witness :
    3 < 2 ^ 8 ∧ 5 < 2 ^ 32 ∧
    wakerDataNew 3 5 < 2 ^ 40 ∧
    wakerDataWakerId (wakerDataNew 3 5) = 3 ∧
    wakerDataPid (wakerDataNew 3 5) = 5 :=
  ⟨by decide, by decide, wakerData_roundtrip 3 5 (by decide) (by decide)⟩

/-- C6: polling a `Deadline` before the deadline forwards to the inner
future and returns its result; polling at or after the deadline
short-circuits with the converted `DeadlinePassed` error without
polling the inner future; for a never-completing inner future with the
`io::Error` conversion this means `Pending` before the deadline and
`Ready(Err(TimedOut))` at or after it. -/
theorem deadline_poll_correct :
    (∀ (σ E T : Type) (e : E) (ip : σ → σ × Poll (Except E T))
        (d : Deadline σ) (now : Nat), d.deadline ≤ now →
        Deadline.poll e ip d now = (d, .ready (.error e))) ∧
    (∀ (σ E T : Type) (e : E) (ip : σ → σ × Poll (Except E T))
        (d : Deadline σ) (now : Nat), now < d.deadline →
        Deadline.poll e ip d now
          = ({ d with future := (ip d.future).1 }, (ip d.future).2)) ∧
    (∀ (dl now1 now2 : Nat), now1 < dl → dl ≤ now2 →
        (pendingIoDeadlinePoll ⟨dl, ()⟩ now1).2 = .pending ∧
        (pendingIoDeadlinePoll ⟨dl, ()⟩ now2).2
          = .ready (.error .timedOut)) := by
  refine ⟨?_, ?_, ?_⟩
  · intro σ E T e ip d now h
    simp [Deadline.poll, Deadline.hasPassed, h]
  · intro σ E T e ip d now h
    simp [Deadline.poll, Deadline.hasPassed, Nat.not_le.mpr h]
  · intro dl now1 now2 h1 h2
    constructor
    · simp [pendingIoDeadlinePoll, Deadline.poll, Deadline.hasPassed,
        pendingPoll, Nat.not_le.mpr h1]
    · simp [pendingIoDeadlinePoll, Deadline.poll, Deadline.hasPassed,
        deadlinePassedIntoIoError, h2]

/-- Witness for C6: a deadline at instant 10, polled at 0 and at 10. -/
theorem deadline_poll_correct_witness :
    0 < 10 ∧ (10 : Nat) ≤ 10 ∧
    (pendingIoDeadlinePoll ⟨10, ()⟩ 0).2 = .pending ∧
    (pendingIoDeadlinePoll ⟨10, ()⟩ 10).2 = .ready (.error .timedOut) :=
  ⟨by decide, by decide,
   (deadline_poll_correct.2.2 10 0 10 (by decide) (by decide)).1,
   (deadline_poll_correct.2.2 10 0 10 (by decide) (by decide)).2⟩

/-- C8: in the synchronous worker loop an `Ok` run terminates the
loop, an `Err` consults the supervisor: `Stop` terminates the loop and
`Restart(new_arg)` reruns the actor with the new argument; with the
always-failing actor and the restart-once supervisor of the functional
test the actor body runs exactly twice (with arguments 0 then 1) and
the loop terminates, so join succeeds. -/
theorem sync_supervision_correct :
    (∀ (Arg E : Type) (actor : Arg → Except E Unit)
        (sup : E → SupervisorStrategy Arg) (fuel : Nat) (arg : Arg),
        actor arg = .ok () →
        syncWorkerMain actor sup (fuel + 1) arg = some [arg]) ∧
    (∀ (Arg E : Type) (actor : Arg → Except E Unit)
        (sup : E → SupervisorStrategy Arg) (fuel : Nat) (arg : Arg) (e : E),
        actor arg = .error e → sup e = .stop →
        syncWorkerMain actor sup (fuel + 1) arg = some [arg]) ∧
    (∀ (Arg E : Type) (actor : Arg → Except E Unit)
        (sup : E → SupervisorStrategy Arg) (fuel : Nat) (arg : Arg) (e : E)
        (newArg : Arg),
        actor arg = .error e → sup e = .restart newArg →
        syncWorkerMain actor sup (fuel + 1) arg
          = (syncWorkerMain actor sup fuel newArg).map (arg :: ·)) ∧
    (∀ fuel : Nat, 2 ≤ fuel →
        syncWorkerMain badActor badActorSupervisor fuel 0 = some [0, 1]) := by
  refine ⟨?_, ?_, ?_, ?_⟩
  · intro Arg E actor sup fuel arg h
    simp [syncWorkerMain, h]
  · intro Arg E actor sup fuel arg e h1 h2
    simp [syncWorkerMain, h1, h2]
  · intro Arg E actor sup fuel arg e newArg h1 h2
    simp [syncWorkerMain, h1, h2]
  · intro fuel h
    obtain ⟨k, rfl⟩ : ∃ k, fuel = k + 2 := ⟨fuel - 2, by omega⟩
    simp [syncWorkerMain, badActor, badActorSupervisor]

/-- Witness for C8 at fuel 2. -/
theorem sync_supervision_correct_witness :
    2 ≤ 2 ∧ syncWorkerMain badActor badActorSupervisor 2 0 = some [0, 1] :=
  ⟨by decide, sync_supervision_correct.2.2.2 2 (by decide)⟩
